import Mathlib

/-!
Shallow embedding of the Customer data-access layer of the erxes CRM
(`src/unnamed/part_000`, class `Customer` loaded onto the mongoose
`customers` model).  The persistent store is modelled as a list of
customer records; every operation is a pure function from the store to a
result paired with the post-operation store, and a thrown
`Error("Duplicated ...")` is modelled as `Except.error` carrying the
colliding field.  External collaborators (Fields, Companies,
ActivityLogs, Conversations, EngageMessages, InternalNotes) are
black-box contracts and are modelled as function parameters or abstract
success flags, as noted at each use site.
-/

/-- Twitter identity payload (`ITwitterData`); only its `id` is read by
the duplication checker (`twitterData.id` query). -/
structure ITwitterData where
  id : Int
deriving DecidableEq, Repr

/-- Facebook identity payload (`IFacebookData`); only its `id` is read by
the duplication checker (`facebookData.id` query). -/
structure IFacebookData where
  id : String
deriving DecidableEq, Repr

/-- Custom-field payload: an opaque key/value map owned by the Fields
collaborator.  Modelled as an association list. -/
abbrev CustomFieldsData := List (String × String)

/-- The empty custom-field payload, the image of the TS literal used in
`doc.customFieldsData || \x7b\x7d`. -/
def CustomFieldsData.empty : CustomFieldsData := []

/-- Acting user (`IUserDocument`); only its `_id` is read. -/
structure IUserDocument where
  _id : String
deriving DecidableEq, Repr

/-- A persisted customer record (`ICustomerDocument`).  List-valued
fields (`emails`, `phones`, `tagIds`, `companyIds`) are modelled as
plain lists with the absent field identified with `[]`: every read in
the source guards them with `|| []`, and the mongo queries used
(`$in`) treat a missing array and an empty array identically. -/
structure ICustomerDocument where
  _id : String
  twitterData : Option ITwitterData
  facebookData : Option IFacebookData
  primaryEmail : Option String
  emails : List String
  primaryPhone : Option String
  phones : List String
  tagIds : List String
  companyIds : List String
  integrationId : Option String
  ownerId : Option String
  firstName : Option String
  lastName : Option String
  position : Option String
  department : Option String
  leadStatus : Option String
  lifecycleState : Option String
  hasAuthority : Option String
  description : Option String
  doNotDisturb : Option String
  isUser : Option Bool
  customFieldsData : CustomFieldsData
  createdAt : Nat
  modifiedAt : Nat
deriving DecidableEq, Repr

/-- The customer store: the `customers` collection, as an ordered list
of documents (`find` and `findOne` respect list order the way mongo
respects natural order). -/
abbrev CustomerStore := List ICustomerDocument

/-- Candidate field set for the duplication checker
(`ICustomerFieldsInput`). -/
structure ICustomerFieldsInput where
  twitterData : Option ITwitterData
  facebookData : Option IFacebookData
  primaryEmail : Option String
  primaryPhone : Option String
deriving DecidableEq, Repr

/-- Creation / update input (`ICreateCustomerInput`).  Optional fields
are `Option`; list-valued fields are `Option (List String)` so that a
partial update can distinguish an absent key from an empty list. -/
structure ICreateCustomerInput where
  firstName : Option String := none
  lastName : Option String := none
  primaryEmail : Option String := none
  emails : Option (List String) := none
  primaryPhone : Option String := none
  phones : Option (List String) := none
  ownerId : Option String := none
  position : Option String := none
  department : Option String := none
  leadStatus : Option String := none
  lifecycleState : Option String := none
  hasAuthority : Option String := none
  description : Option String := none
  doNotDisturb : Option String := none
  isUser : Option Bool := none
  integrationId : Option String := none
  tagIds : Option (List String) := none
  companyIds : Option (List String) := none
  customFieldsData : Option CustomFieldsData := none
  twitterData : Option ITwitterData := none
  facebookData : Option IFacebookData := none
deriving DecidableEq, Repr

/-- Projection of a creation input onto the identity fields the
duplication checker reads (TS passes the whole `doc` structurally). -/
def ICreateCustomerInput.toFieldsInput (doc : ICreateCustomerInput) :
    ICustomerFieldsInput :=
  { twitterData := doc.twitterData
    facebookData := doc.facebookData
    primaryEmail := doc.primaryEmail
    primaryPhone := doc.primaryPhone }

/-- The `idsToExclude?: string[] | string` argument of the checker:
absent, a single identifier (`$ne`) or a list (`$nin`). -/
inductive IdsToExclude where
  | noExclude
  | single (id : String)
  | multi (ids : List String)
deriving DecidableEq, Repr

/-- Whether a record identifier is filtered out by the exclusion query
(`_id: \x7b $ne: id \x7d` or `_id: \x7b $nin: ids \x7d`). -/
def IdsToExclude.excludes : IdsToExclude → String → Bool
  | noExclude, _ => false
  | single i, x => x == i
  | multi is, x => is.contains x

/-- Which identity field collided, the payload of the thrown
`Error("Duplicated ...")`. -/
inductive DupField where
  | twitter
  | facebook
  | email
  | phone
deriving DecidableEq, Repr

/-- The message string of the thrown error for each colliding field. -/
def DupField.message : DupField → String
  | .twitter => "Duplicated twitter"
  | .facebook => "Duplicated facebook"
  | .email => "Duplicated email"
  | .phone => "Duplicated phone"

/-- A `Customers.find` over the store with the exclusion operator merged
into the query: keeps the non-excluded records satisfying the given
field condition. -/
def storeFind (store : CustomerStore) (excl : IdsToExclude)
    (p : ICustomerDocument → Bool) : List ICustomerDocument :=
  store.filter (fun c => !excl.excludes c._id && p c)

/-- Block 1 of the checker: `if (customerFields.twitterData)`, find on
`twitterData.id`, throw `Duplicated twitter` when nonempty. -/
def checkTwitterDup (customerFields : ICustomerFieldsInput)
    (excl : IdsToExclude) (store : CustomerStore) : Except DupField Unit := do
  if let some td := customerFields.twitterData then
    if ((storeFind store excl
        (fun c => c.twitterData.any (fun t => t.id == td.id))).length > 0) then
      throw DupField.twitter

/-- Block 2 of the checker: `if (customerFields.facebookData)`, find on
`facebookData.id`, throw `Duplicated facebook` when nonempty. -/
def checkFacebookDup (customerFields : ICustomerFieldsInput)
    (excl : IdsToExclude) (store : CustomerStore) : Except DupField Unit := do
  if let some fb := customerFields.facebookData then
    if ((storeFind store excl
        (fun c => c.facebookData.any (fun f => f.id == fb.id))).length > 0) then
      throw DupField.facebook

/-- Block 3 of the checker: `if (customerFields.primaryEmail)`, a find
on `primaryEmail` then a find on `emails: \x7b$in: [...]\x7d`, each
throwing `Duplicated email` when nonempty. -/
def checkEmailDup (customerFields : ICustomerFieldsInput)
    (excl : IdsToExclude) (store : CustomerStore) : Except DupField Unit := do
  if let some em := customerFields.primaryEmail then
    if ((storeFind store excl
        (fun c => c.primaryEmail == some em)).length > 0) then
      throw DupField.email
    if ((storeFind store excl
        (fun c => c.emails.contains em)).length > 0) then
      throw DupField.email

/-- Block 4 of the checker: `if (customerFields.primaryPhone)`, a find
on `primaryPhone` then a find on `phones: \x7b$in: [...]\x7d`, each
throwing `Duplicated phone` when nonempty. -/
def checkPhoneDup (customerFields : ICustomerFieldsInput)
    (excl : IdsToExclude) (store : CustomerStore) : Except DupField Unit := do
  if let some ph := customerFields.primaryPhone then
    if ((storeFind store excl
        (fun c => c.primaryPhone == some ph)).length > 0) then
      throw DupField.phone
    if ((storeFind store excl
        (fun c => c.phones.contains ph)).length > 0) then
      throw DupField.phone

/-- The duplication checker (`Customer.checkDuplication`).  Read-only:
it takes the store and returns only `Except`, no modified store.  The
four guarded blocks of the source run in source order — twitter,
facebook, primary email, primary phone — and a throw in one block
aborts the remaining blocks. -/
def checkDuplication (customerFields : ICustomerFieldsInput)
    (excl : IdsToExclude) (store : CustomerStore) : Except DupField Unit := do
  checkTwitterDup customerFields excl store
  checkFacebookDup customerFields excl store
  checkEmailDup customerFields excl store
  checkPhoneDup customerFields excl store

/-- The record persisted by `Customers.create(\x7bcreatedAt, modifiedAt,
...doc\x7d)`: both timestamps at operation time, a store-generated
identifier, and every supplied field copied through (absent list fields
persist as the empty list, see `ICustomerDocument`). -/
def persistCustomer (now : Nat) (newId : String)
    (doc : ICreateCustomerInput) : ICustomerDocument :=
  { _id := newId
    twitterData := doc.twitterData
    facebookData := doc.facebookData
    primaryEmail := doc.primaryEmail
    emails := doc.emails.getD []
    primaryPhone := doc.primaryPhone
    phones := doc.phones.getD []
    tagIds := doc.tagIds.getD []
    companyIds := doc.companyIds.getD []
    integrationId := doc.integrationId
    ownerId := doc.ownerId
    firstName := doc.firstName
    lastName := doc.lastName
    position := doc.position
    department := doc.department
    leadStatus := doc.leadStatus
    lifecycleState := doc.lifecycleState
    hasAuthority := doc.hasAuthority
    description := doc.description
    doNotDisturb := doc.doNotDisturb
    isUser := doc.isUser
    customFieldsData := doc.customFieldsData.getD CustomFieldsData.empty
    createdAt := now
    modifiedAt := now }

/-- The in-place mutations `createCustomer` applies to `doc` before
persisting: `if (!doc.ownerId && user) doc.ownerId = user._id` and
`doc.customFieldsData = await Fields.cleanMulti(doc.customFieldsData ||
\x7b\x7d)`, with `clean` standing for the black-box `Fields.cleanMulti`
collaborator. -/
def applyCreateDefaults (clean : CustomFieldsData → CustomFieldsData)
    (doc : ICreateCustomerInput) (user : Option IUserDocument) :
    ICreateCustomerInput :=
  let doc :=
    if doc.ownerId.isNone then
      { doc with ownerId := user.map IUserDocument._id }
    else doc
  let cleaned := clean (doc.customFieldsData.getD CustomFieldsData.empty)
  { doc with customFieldsData := some cleaned }

/-- Customer creation (`Customer.createCustomer`).  `clean` is the
black-box `Fields.cleanMulti` collaborator, passed as a parameter; `now`
is the operation time (`new Date()`); `newId` the identifier the store
generates for the inserted document.  Returns the error and the
untouched store when the duplication check (run with no exclusion)
throws, else the persisted record and the store with it appended. -/
def createCustomer (clean : CustomFieldsData → CustomFieldsData)
    (now : Nat) (newId : String) (doc : ICreateCustomerInput)
    (user : Option IUserDocument) (store : CustomerStore) :
    Except DupField ICustomerDocument × CustomerStore :=
  match checkDuplication doc.toFieldsInput IdsToExclude.noExclude store with
  | .error f => (.error f, store)
  | .ok _ =>
    let c := persistCustomer now newId (applyCreateDefaults clean doc user)
    (.ok c, store ++ [c])

/-- The `$set` write of `Customers.update(\x7b_id\x7d, \x7b$set: \x7b...doc,
modifiedAt\x7d\x7d)` applied to one record: every key present in `doc`
overwrites the stored value, absent keys keep it, and `modifiedAt` is
stamped. -/
def applySet (doc : ICreateCustomerInput) (now : Nat)
    (c : ICustomerDocument) : ICustomerDocument :=
  { c with
    twitterData := doc.twitterData <|> c.twitterData
    facebookData := doc.facebookData <|> c.facebookData
    primaryEmail := doc.primaryEmail <|> c.primaryEmail
    emails := doc.emails.getD c.emails
    primaryPhone := doc.primaryPhone <|> c.primaryPhone
    phones := doc.phones.getD c.phones
    tagIds := doc.tagIds.getD c.tagIds
    companyIds := doc.companyIds.getD c.companyIds
    integrationId := doc.integrationId <|> c.integrationId
    ownerId := doc.ownerId <|> c.ownerId
    firstName := doc.firstName <|> c.firstName
    lastName := doc.lastName <|> c.lastName
    position := doc.position <|> c.position
    department := doc.department <|> c.department
    leadStatus := doc.leadStatus <|> c.leadStatus
    lifecycleState := doc.lifecycleState <|> c.lifecycleState
    hasAuthority := doc.hasAuthority <|> c.hasAuthority
    description := doc.description <|> c.description
    doNotDisturb := doc.doNotDisturb <|> c.doNotDisturb
    isUser := doc.isUser <|> c.isUser
    customFieldsData := doc.customFieldsData.getD c.customFieldsData
    modifiedAt := now }

/-- Customer update (`Customer.updateCustomer`).  Runs the duplication
checker excluding the target identifier itself, then (when a
custom-field payload is present) cleans it through the Fields
collaborator, applies the `$set` write to every record matching `_id`,
and returns the re-fetched record (`findOne`, `none` when the target
does not exist). -/
def updateCustomer (clean : CustomFieldsData → CustomFieldsData)
    (now : Nat) (_id : String) (doc : ICreateCustomerInput)
    (store : CustomerStore) :
    Except DupField (Option ICustomerDocument) × CustomerStore :=
  match checkDuplication doc.toFieldsInput (IdsToExclude.single _id) store with
  | .error f => (.error f, store)
  | .ok _ =>
    let cleaned := clean (doc.customFieldsData.getD CustomFieldsData.empty)
    let doc :=
      if doc.customFieldsData.isSome then
        { doc with customFieldsData := some cleaned }
      else doc
    let store' := store.map
      (fun c => if c._id == _id then applySet doc now c else c)
    (.ok (store'.find? (fun c => c._id == _id)), store')

/-- The four sibling services whose records reference a customer. -/
inductive Collaborator where
  | activityLogs
  | conversations
  | engageMessages
  | internalNotes
deriving DecidableEq, Repr

/-- Observable calls made by `removeCustomer`: one cascade-deletion call
per collaborator, then the deletion of the customer record itself. -/
inductive RemoveEvent where
  | cascade (c : Collaborator)
  | deleteCustomer (id : String)
deriving DecidableEq, Repr

/-- Customer removal (`Customer.removeCustomer`).  The four collaborator
cascade deletions (`removeCustomerActivityLog`, conversations, engages,
internal notes) are external calls whose outcome is abstracted by
`cascadeOk`; a rejected awaited call throws, so the remaining calls and
the final `Customers.remove` do not run and the store is untouched.  The
returned event list records the calls issued, in issue order. -/
def removeCustomer (cascadeOk : Collaborator → Bool) (customerId : String)
    (store : CustomerStore) :
    Except Collaborator Unit × CustomerStore × List RemoveEvent :=
  if !cascadeOk .activityLogs then
    (.error .activityLogs, store, [.cascade .activityLogs])
  else if !cascadeOk .conversations then
    (.error .conversations, store,
      [.cascade .activityLogs, .cascade .conversations])
  else if !cascadeOk .engageMessages then
    (.error .engageMessages, store,
      [.cascade .activityLogs, .cascade .conversations,
       .cascade .engageMessages])
  else if !cascadeOk .internalNotes then
    (.error .internalNotes, store,
      [.cascade .activityLogs, .cascade .conversations,
       .cascade .engageMessages, .cascade .internalNotes])
  else
    (.ok (), store.filter (fun c => c._id != customerId),
      [.cascade .activityLogs, .cascade .conversations,
       .cascade .engageMessages, .cascade .internalNotes,
       .deleteCustomer customerId])

/-- A company record. Modelled from the spec: the Companies collaborator
is external to this file; its `createCompany(\x7bname, website\x7d)`
contract "accepts name + website, returns a created company with a
generated identifier". -/
structure ICompanyDocument where
  _id : String
  name : String
  website : String
deriving DecidableEq, Repr

/-- Modelled from the spec: `Companies.createCompany`, the creation
delegate of the Company collaborator; `genId` is the identifier the
collaborator generates. -/
def createCompany (genId : String) (name website : String) :
    ICompanyDocument :=
  { _id := genId, name := name, website := website }

/-- The mongo `$addToSet` operator on a list-valued field: appends the
value unless it is already present. -/
def addToSet (l : List String) (a : String) : List String :=
  if a ∈ l then l else l ++ [a]

/-- Company linkage (`Customer.addCompany`): creates the company through
the collaborator, `$addToSet`s its identifier into the matching
customer record, and returns the company object (not the customer). -/
def addCompany (genId : String) (_id name website : String)
    (store : CustomerStore) : ICompanyDocument × CustomerStore :=
  let company := createCompany genId name website
  let store' := store.map
    (fun c =>
      if c._id == _id then
        { c with companyIds := addToSet c.companyIds company._id }
      else c)
  (company, store')

/-- Replace of the full company list (`Customer.updateCompanies`):
`$set`s `companyIds` verbatim on the matching record and returns the
re-fetched record. -/
def updateCompanies (_id : String) (companyIds : List String)
    (store : CustomerStore) : Option ICustomerDocument × CustomerStore :=
  let store' := store.map
    (fun c => if c._id == _id then { c with companyIds := companyIds } else c)
  (store'.find? (fun c => c._id == _id), store')

/-- JS `Array.from(new Set(xs))`: removes duplicates keeping the first
occurrence of each element, in first-occurrence order. -/
def jsSetDedup (l : List String) : List String :=
  l.foldl (fun acc a => if a ∈ acc then acc else acc ++ [a]) []

/-- Seed of the email accumulator: the supplied primary email, if
present (`if (customerFields.primaryEmail) emails.push(...)`). -/
def seedEmails (customerFields : ICreateCustomerInput) : List String :=
  match customerFields.primaryEmail with
  | some e => [e]
  | none => []

/-- Seed of the phone accumulator: the supplied primary phone, if
present (`if (customerFields.primaryPhone) phones.push(...)`). -/
def seedPhones (customerFields : ICreateCustomerInput) : List String :=
  match customerFields.primaryPhone with
  | some p => [p]
  | none => []

/-- State threaded through the merge fold: the (mutated) supplied field
set, the four accumulator lists, and the store as records get removed. -/
structure MergeAcc where
  fields : ICreateCustomerInput
  tagIds : List String
  companyIds : List String
  emails : List String
  phones : List String
  store : CustomerStore

/-- One iteration of the merge fold (`for (const customerId of
customerIds)`): fetch the record; when found, overwrite the field sets
integration reference with this records reference, append its tags,
companies, emails and phones to the accumulators, and remove the record
from the store; when not found, leave everything unchanged. -/
def mergeStep (acc : MergeAcc) (customerId : String) : MergeAcc :=
  match acc.store.find? (fun c => c._id == customerId) with
  | some customerObj =>
    { fields := { acc.fields with integrationId := customerObj.integrationId }
      tagIds := acc.tagIds ++ customerObj.tagIds
      companyIds := acc.companyIds ++ customerObj.companyIds
      emails := acc.emails ++ customerObj.emails
      phones := acc.phones ++ customerObj.phones
      store := acc.store.filter (fun c => c._id != customerId) }
  | none => acc

/-- Customer merge (`Customer.mergeCustomers`).  Runs the duplication
checker on the supplied field set excluding every input identifier,
seeds the email/phone accumulators from the supplied primary email and
phone, folds `mergeStep` over the input identifiers in list order
(deleting each found record during the fold), deduplicates the four
accumulators, and creates the survivor via `createCustomer` with the
supplied field set overridden by the deduplicated accumulators (the
inner creation re-runs the checker with no exclusion; a failure there
surfaces after the input records were already deleted).  The returned
store is the post-operation store in every case, error or not. -/
def mergeCustomers (clean : CustomFieldsData → CustomFieldsData)
    (now : Nat) (newId : String) (customerIds : List String)
    (customerFields : ICreateCustomerInput) (store : CustomerStore) :
    Except DupField ICustomerDocument × CustomerStore :=
  match checkDuplication customerFields.toFieldsInput
      (IdsToExclude.multi customerIds) store with
  | .error f => (.error f, store)
  | .ok _ =>
    let acc := customerIds.foldl mergeStep
      { fields := customerFields
        tagIds := []
        companyIds := []
        emails := seedEmails customerFields
        phones := seedPhones customerFields
        store := store }
    let doc :=
      { acc.fields with
        tagIds := some (jsSetDedup acc.tagIds)
        companyIds := some (jsSetDedup acc.companyIds)
        emails := some (jsSetDedup acc.emails)
        phones := some (jsSetDedup acc.phones) }
    createCustomer clean now newId doc none acc.store

/-- Spec-side predicate, following the words of the spec (sec 4.1,
check 1): the candidate twitter identifier "equals an existing
record's twitter identifier", among non-excluded records. -/
def twitterCollides (f : ICustomerFieldsInput) (excl : IdsToExclude)
    (store : CustomerStore) : Bool :=
  match f.twitterData with
  | some td => store.any
      (fun c => !excl.excludes c._id &&
        c.twitterData.any (fun t => t.id == td.id))
  | none => false

/-- Spec-side predicate (sec 4.1, check 2): the candidate facebook
identifier equals an existing non-excluded record's facebook
identifier. -/
def facebookCollides (f : ICustomerFieldsInput) (excl : IdsToExclude)
    (store : CustomerStore) : Bool :=
  match f.facebookData with
  | some fb => store.any
      (fun c => !excl.excludes c._id &&
        c.facebookData.any (fun d => d.id == fb.id))
  | none => false

/-- Spec-side predicate (sec 4.1, check 3): the candidate primary email
equals an existing non-excluded record's primary email, or appears in
such a record's secondary-email list. -/
def emailCollides (f : ICustomerFieldsInput) (excl : IdsToExclude)
    (store : CustomerStore) : Bool :=
  match f.primaryEmail with
  | some em => store.any
      (fun c => !excl.excludes c._id &&
        (c.primaryEmail == some em || c.emails.contains em))
  | none => false

/-- Spec-side predicate (sec 4.1, check 4): the candidate primary phone
equals an existing non-excluded record's primary phone, or appears in
such a record's secondary-phone list. -/
def phoneCollides (f : ICustomerFieldsInput) (excl : IdsToExclude)
    (store : CustomerStore) : Bool :=
  match f.primaryPhone with
  | some ph => store.any
      (fun c => !excl.excludes c._id &&
        (c.primaryPhone == some ph || c.phones.contains ph))
  | none => false

/-- Spec-side result of the checker: the first collision in the fixed
order twitter, facebook, email, phone, or `none` when no check
matches. -/
def specFirstCollision (f : ICustomerFieldsInput) (excl : IdsToExclude)
    (store : CustomerStore) : Option DupField :=
  if twitterCollides f excl store then some DupField.twitter
  else if facebookCollides f excl store then some DupField.facebook
  else if emailCollides f excl store then some DupField.email
  else if phoneCollides f excl store then some DupField.phone
  else none

/-- A nonempty `find` result is the same as some non-excluded record
satisfying the condition. -/
theorem storeFind_pos_iff (store : CustomerStore) (excl : IdsToExclude)
    (p : ICustomerDocument → Bool) :
    0 < (storeFind store excl p).length ↔
      ∃ c ∈ store, excl.excludes c._id = false ∧ p c = true := by
  simp [storeFind, List.length_pos, List.filter_eq_nil_iff,
    Bool.not_eq_true']

theorem storeFind_pos_iff_any (store : CustomerStore) (excl : IdsToExclude)
    (p : ICustomerDocument → Bool) :
    0 < (storeFind store excl p).length ↔
      store.any (fun c => !excl.excludes c._id && p c) = true := by
  simp [storeFind, List.length_pos, List.filter_eq_nil_iff, List.any_eq_true]

theorem checkTwitterDup_eq (f : ICustomerFieldsInput) (excl : IdsToExclude)
    (store : CustomerStore) :
    checkTwitterDup f excl store =
      (if twitterCollides f excl store then Except.error DupField.twitter
       else Except.ok ()) := by
  unfold checkTwitterDup twitterCollides
  cases f.twitterData with
  | none => rfl
  | some td =>
    by_cases h : 0 < (storeFind store excl
        (fun c => c.twitterData.any (fun t => t.id == td.id))).length
    · have h' := (storeFind_pos_iff_any store excl _).mp h
      simp [h, h']
      rfl
    · have h' : store.any (fun c => !excl.excludes c._id &&
          c.twitterData.any (fun t => t.id == td.id)) = false := by
        rw [← Bool.not_eq_true, ← storeFind_pos_iff_any]
        exact h
      simp [h, h']
      rfl

theorem any_and_or_split (store : CustomerStore)
    (e p q : ICustomerDocument → Bool) :
    store.any (fun c => e c && (p c || q c)) =
      (store.any (fun c => e c && p c) || store.any (fun c => e c && q c)) := by
  rw [Bool.eq_iff_iff]
  simp only [List.any_eq_true, Bool.and_eq_true, Bool.or_eq_true]
  constructor
  · rintro ⟨c, hc, he, hp | hq⟩
    · exact Or.inl ⟨c, hc, he, hp⟩
    · exact Or.inr ⟨c, hc, he, hq⟩
  · rintro (⟨c, hc, he, hp⟩ | ⟨c, hc, he, hq⟩)
    · exact ⟨c, hc, he, Or.inl hp⟩
    · exact ⟨c, hc, he, Or.inr hq⟩

theorem checkFacebookDup_eq (f : ICustomerFieldsInput) (excl : IdsToExclude)
    (store : CustomerStore) :
    checkFacebookDup f excl store =
      (if facebookCollides f excl store then Except.error DupField.facebook
       else Except.ok ()) := by
  unfold checkFacebookDup facebookCollides
  cases f.facebookData with
  | none => rfl
  | some fb =>
    by_cases h : 0 < (storeFind store excl
        (fun c => c.facebookData.any (fun d => d.id == fb.id))).length
    · have h' := (storeFind_pos_iff_any store excl _).mp h
      simp [h, h']
      rfl
    · have h' : store.any (fun c => !excl.excludes c._id &&
          c.facebookData.any (fun d => d.id == fb.id)) = false := by
        rw [← Bool.not_eq_true, ← storeFind_pos_iff_any]
        exact h
      simp [h, h']
      rfl

theorem checkEmailDup_eq (f : ICustomerFieldsInput) (excl : IdsToExclude)
    (store : CustomerStore) :
    checkEmailDup f excl store =
      (if emailCollides f excl store then Except.error DupField.email
       else Except.ok ()) := by
  unfold checkEmailDup emailCollides
  cases f.primaryEmail with
  | none => rfl
  | some em =>
    dsimp only
    rw [any_and_or_split]
    by_cases h1 : 0 < (storeFind store excl
        (fun c => c.primaryEmail == some em)).length
    · have a1 := (storeFind_pos_iff_any store excl _).mp h1
      simp [h1, a1]
      rfl
    · have a1 : (store.any fun c => !excl.excludes c._id &&
          (c.primaryEmail == some em)) = false := by
        rw [← Bool.not_eq_true, ← storeFind_pos_iff_any]
        exact h1
      by_cases h2 : 0 < (storeFind store excl
          (fun c => c.emails.contains em)).length
      · have a2 := (storeFind_pos_iff_any store excl _).mp h2
        simp only [List.any_eq_true, Bool.and_eq_true, Bool.not_eq_true'] at a1 a2
        simp [storeFind_pos_iff, h1, h2, a1, a2]
        split_ifs <;> rfl
      · have a2 : (store.any fun c => !excl.excludes c._id &&
            c.emails.contains em) = false := by
          rw [← Bool.not_eq_true, ← storeFind_pos_iff_any]
          exact h2
        simp only [List.any_eq_true, Bool.and_eq_true, Bool.not_eq_true'] at a1 a2
        simp [storeFind_pos_iff, h1, h2, a1, a2]
        rfl

theorem checkPhoneDup_eq (f : ICustomerFieldsInput) (excl : IdsToExclude)
    (store : CustomerStore) :
    checkPhoneDup f excl store =
      (if phoneCollides f excl store then Except.error DupField.phone
       else Except.ok ()) := by
  unfold checkPhoneDup phoneCollides
  cases f.primaryPhone with
  | none => rfl
  | some ph =>
    dsimp only
    rw [any_and_or_split]
    by_cases h1 : 0 < (storeFind store excl
        (fun c => c.primaryPhone == some ph)).length
    · have a1 := (storeFind_pos_iff_any store excl _).mp h1
      simp [h1, a1]
      rfl
    · have a1 : (store.any fun c => !excl.excludes c._id &&
          (c.primaryPhone == some ph)) = false := by
        rw [← Bool.not_eq_true, ← storeFind_pos_iff_any]
        exact h1
      by_cases h2 : 0 < (storeFind store excl
          (fun c => c.phones.contains ph)).length
      · have a2 := (storeFind_pos_iff_any store excl _).mp h2
        simp only [List.any_eq_true, Bool.and_eq_true, Bool.not_eq_true'] at a1 a2
        simp [storeFind_pos_iff, h1, h2, a1, a2]
        split_ifs <;> rfl
      · have a2 : (store.any fun c => !excl.excludes c._id &&
            c.phones.contains ph) = false := by
          rw [← Bool.not_eq_true, ← storeFind_pos_iff_any]
          exact h2
        simp only [List.any_eq_true, Bool.and_eq_true, Bool.not_eq_true'] at a1 a2
        simp [storeFind_pos_iff, h1, h2, a1, a2]
        rfl

theorem checkDuplication_eq_spec (f : ICustomerFieldsInput)
    (excl : IdsToExclude) (store : CustomerStore) :
    checkDuplication f excl store =
      (match specFirstCollision f excl store with
       | some d => Except.error d
       | none => Except.ok ()) := by
  unfold checkDuplication specFirstCollision
  rw [checkTwitterDup_eq, checkFacebookDup_eq, checkEmailDup_eq,
    checkPhoneDup_eq]
  cases htw : twitterCollides f excl store <;>
    cases hfb : facebookCollides f excl store <;>
      cases hem : emailCollides f excl store <;>
        cases hph : phoneCollides f excl store <;>
          rfl

theorem jsSetDedup_foldl_mem (l acc : List String) (x : String) :
    x ∈ l.foldl (fun acc a => if a ∈ acc then acc else acc ++ [a]) acc ↔
      x ∈ acc ∨ x ∈ l := by
  induction l generalizing acc with
  | nil => simp
  | cons a l ih =>
    rw [List.foldl_cons, ih]
    by_cases ha : a ∈ acc
    · simp only [if_pos ha]
      constructor
      · rintro (h | h)
        · exact Or.inl h
        · exact Or.inr (List.mem_cons_of_mem a h)
      · rintro (h | h)
        · exact Or.inl h
        · rcases List.mem_cons.mp h with rfl | h
          · exact Or.inl ha
          · exact Or.inr h
    · simp only [if_neg ha, List.mem_append, List.mem_singleton,
        List.mem_cons]
      tauto

theorem jsSetDedup_foldl_nodup (l : List String) :
    ∀ acc : List String, acc.Nodup →
      (l.foldl (fun acc a => if a ∈ acc then acc else acc ++ [a]) acc).Nodup := by
  induction l with
  | nil => intro acc h; simpa using h
  | cons a l ih =>
    intro acc h
    rw [List.foldl_cons]
    by_cases ha : a ∈ acc
    · rw [if_pos ha]; exact ih acc h
    · rw [if_neg ha]
      refine ih _ ?_
      rw [← List.concat_eq_append]
      exact List.Nodup.concat ha h

theorem mem_jsSetDedup (l : List String) (x : String) :
    x ∈ jsSetDedup l ↔ x ∈ l := by
  unfold jsSetDedup
  rw [jsSetDedup_foldl_mem]
  simp

theorem jsSetDedup_nodup (l : List String) : (jsSetDedup l).Nodup :=
  jsSetDedup_foldl_nodup l [] List.nodup_nil

theorem toFinset_jsSetDedup (l : List String) :
    (jsSetDedup l).toFinset = l.toFinset := by
  ext x
  simp [mem_jsSetDedup]

theorem find?_filter_of_imp (l : List ICustomerDocument)
    (p q : ICustomerDocument → Bool)
    (h : ∀ x, p x = true → q x = true) :
    (l.filter q).find? p = l.find? p := by
  induction l with
  | nil => rfl
  | cons a l ih =>
    by_cases hq : q a = true
    · rw [List.filter_cons_of_pos hq]
      by_cases hp : p a = true
      · rw [List.find?_cons_of_pos _ hp, List.find?_cons_of_pos _ hp]
      · rw [List.find?_cons_of_neg _ hp, List.find?_cons_of_neg _ hp, ih]
    · have hp : ¬p a = true := fun hpa => hq (h a hpa)
      rw [List.filter_cons_of_neg (by simpa using hq), ih,
        List.find?_cons_of_neg _ hp]

theorem find?_filter_ne_self (store : CustomerStore) (a : String) :
    (store.filter (fun c => c._id != a)).find? (fun c => c._id == a) =
      none := by
  rw [List.find?_eq_none]
  intro c hc
  have := List.of_mem_filter hc
  simpa using this

theorem find?_append_none {l₁ l₂ : List ICustomerDocument}
    {p : ICustomerDocument → Bool} (h₁ : l₁.find? p = none) :
    (l₁ ++ l₂).find? p = l₂.find? p := by
  induction l₁ with
  | nil => rfl
  | cons a l ih =>
    rw [List.find?_cons] at h₁
    rcases hp : p a with _ | _
    · rw [hp] at h₁
      dsimp only at h₁
      rw [List.cons_append, List.find?_cons_of_neg _ (by simp [hp])]
      exact ih h₁
    · rw [hp] at h₁
      dsimp only at h₁
      cases h₁

theorem createCustomer_check_ok (clean : CustomFieldsData → CustomFieldsData)
    (now : Nat) (newId : String) (doc : ICreateCustomerInput)
    (user : Option IUserDocument) (store : CustomerStore)
    (h : checkDuplication doc.toFieldsInput IdsToExclude.noExclude store =
      Except.ok ()) :
    createCustomer clean now newId doc user store =
      (Except.ok (persistCustomer now newId
          (applyCreateDefaults clean doc user)),
        store ++ [persistCustomer now newId
          (applyCreateDefaults clean doc user)]) := by
  unfold createCustomer
  rw [h]

theorem createCustomer_check_error (clean : CustomFieldsData → CustomFieldsData)
    (now : Nat) (newId : String) (doc : ICreateCustomerInput)
    (user : Option IUserDocument) (store : CustomerStore) (f : DupField)
    (h : checkDuplication doc.toFieldsInput IdsToExclude.noExclude store =
      Except.error f) :
    createCustomer clean now newId doc user store = (Except.error f, store) := by
  unfold createCustomer
  rw [h]

theorem applyCreateDefaults_tagIds (clean : CustomFieldsData → CustomFieldsData)
    (doc : ICreateCustomerInput) (user : Option IUserDocument) :
    (applyCreateDefaults clean doc user).tagIds = doc.tagIds := by
  unfold applyCreateDefaults
  by_cases h : doc.ownerId.isNone <;> simp [h]

theorem applyCreateDefaults_companyIds
    (clean : CustomFieldsData → CustomFieldsData)
    (doc : ICreateCustomerInput) (user : Option IUserDocument) :
    (applyCreateDefaults clean doc user).companyIds = doc.companyIds := by
  unfold applyCreateDefaults
  by_cases h : doc.ownerId.isNone <;> simp [h]

theorem applyCreateDefaults_emails (clean : CustomFieldsData → CustomFieldsData)
    (doc : ICreateCustomerInput) (user : Option IUserDocument) :
    (applyCreateDefaults clean doc user).emails = doc.emails := by
  unfold applyCreateDefaults
  by_cases h : doc.ownerId.isNone <;> simp [h]

theorem applyCreateDefaults_phones (clean : CustomFieldsData → CustomFieldsData)
    (doc : ICreateCustomerInput) (user : Option IUserDocument) :
    (applyCreateDefaults clean doc user).phones = doc.phones := by
  unfold applyCreateDefaults
  by_cases h : doc.ownerId.isNone <;> simp [h]

theorem applyCreateDefaults_integrationId
    (clean : CustomFieldsData → CustomFieldsData)
    (doc : ICreateCustomerInput) (user : Option IUserDocument) :
    (applyCreateDefaults clean doc user).integrationId = doc.integrationId := by
  unfold applyCreateDefaults
  by_cases h : doc.ownerId.isNone <;> simp [h]

theorem applyCreateDefaults_ownerId (clean : CustomFieldsData → CustomFieldsData)
    (doc : ICreateCustomerInput) (user : Option IUserDocument) :
    (applyCreateDefaults clean doc user).ownerId =
      (if doc.ownerId.isNone then user.map IUserDocument._id
       else doc.ownerId) := by
  unfold applyCreateDefaults
  by_cases h : doc.ownerId.isNone <;> simp [h]

theorem applyCreateDefaults_customFieldsData
    (clean : CustomFieldsData → CustomFieldsData)
    (doc : ICreateCustomerInput) (user : Option IUserDocument) :
    (applyCreateDefaults clean doc user).customFieldsData =
      some (clean (doc.customFieldsData.getD CustomFieldsData.empty)) := by
  unfold applyCreateDefaults
  by_cases h : doc.ownerId.isNone <;> simp [h]

theorem mergeStep_found (acc : MergeAcc) (id : String)
    (c : ICustomerDocument)
    (h : acc.store.find? (fun x => x._id == id) = some c) :
    mergeStep acc id =
      { fields := { acc.fields with integrationId := c.integrationId }
        tagIds := acc.tagIds ++ c.tagIds
        companyIds := acc.companyIds ++ c.companyIds
        emails := acc.emails ++ c.emails
        phones := acc.phones ++ c.phones
        store := acc.store.filter (fun x => x._id != id) } := by
  unfold mergeStep
  rw [h]

theorem mergeCustomers_two_found
    (clean : CustomFieldsData → CustomFieldsData) (now : Nat) (newId : String)
    (a b : String) (A B : ICustomerDocument)
    (fields : ICreateCustomerInput) (store : CustomerStore)
    (hA : store.find? (fun c => c._id == a) = some A)
    (hB : store.find? (fun c => c._id == b) = some B)
    (hab : a ≠ b)
    (hok : checkDuplication fields.toFieldsInput
      (IdsToExclude.multi [a, b]) store = Except.ok ()) :
    mergeCustomers clean now newId [a, b] fields store =
      createCustomer clean now newId
        { fields with
            integrationId := B.integrationId
            tagIds := some (jsSetDedup (A.tagIds ++ B.tagIds))
            companyIds := some (jsSetDedup (A.companyIds ++ B.companyIds))
            emails := some (jsSetDedup (seedEmails fields ++ A.emails ++ B.emails))
            phones := some (jsSetDedup (seedPhones fields ++ A.phones ++ B.phones)) }
        none
        ((store.filter (fun c => c._id != a)).filter (fun c => c._id != b)) := by
  have hBfilter : (store.filter (fun c => c._id != a)).find?
      (fun c => c._id == b) = some B := by
    rw [find?_filter_of_imp]
    · exact hB
    · intro x hx
      have hxb : x._id = b := by simpa using hx
      simp [hxb, bne_iff_ne, Ne.symm]
      exact fun h => hab h.symm
  unfold mergeCustomers
  rw [hok]
  dsimp only
  rw [List.foldl_cons, List.foldl_cons, List.foldl_nil]
  rw [mergeStep_found _ a A (by simpa using hA)]
  rw [mergeStep_found _ b B (by simpa using hBfilter)]
  dsimp only
  simp only [List.nil_append]

theorem createCustomer_ok_inv
    (clean : CustomFieldsData → CustomFieldsData) (now : Nat) (newId : String)
    (doc : ICreateCustomerInput) (user : Option IUserDocument)
    (store : CustomerStore) (c : ICustomerDocument) (store₂ : CustomerStore)
    (he : createCustomer clean now newId doc user store =
      (Except.ok c, store₂)) :
    c = persistCustomer now newId (applyCreateDefaults clean doc user) ∧
      store₂ = store ++ [c] := by
  unfold createCustomer at he
  cases h : checkDuplication doc.toFieldsInput IdsToExclude.noExclude store with
  | error f =>
    rw [h] at he
    simp at he
  | ok u =>
    rw [h] at he
    dsimp only at he
    rw [Prod.mk.injEq] at he
    obtain ⟨h1, h2⟩ := he
    injection h1 with h1
    constructor
    · exact h1.symm
    · rw [← h2, h1]

theorem mergeCustomers_ok_check
    (clean : CustomFieldsData → CustomFieldsData) (now : Nat) (newId : String)
    (customerIds : List String) (fields : ICreateCustomerInput)
    (store : CustomerStore) (survivor : ICustomerDocument)
    (store₂ : CustomerStore)
    (he : mergeCustomers clean now newId customerIds fields store =
      (Except.ok survivor, store₂)) :
    checkDuplication fields.toFieldsInput (IdsToExclude.multi customerIds)
      store = Except.ok () := by
  unfold mergeCustomers at he
  cases h : checkDuplication fields.toFieldsInput
      (IdsToExclude.multi customerIds) store with
  | error f =>
    rw [h] at he
    simp at he
  | ok u =>
    cases u
    rfl

/-- C1: merging the identifier list `[a, b]` (both records found)
produces a survivor whose `tagIds` are exactly the deduplicated set
union of both records tags, with no duplicate entries; the same
set-union-with-deduplication holds for the `companyIds`, `emails` and
`phones` accumulators (the latter two seeded from the supplied primary
email and phone). -/
theorem mergeCustomers_tagIds_union
    (clean : CustomFieldsData → CustomFieldsData) (now : Nat) (newId : String)
    (a b : String) (A B : ICustomerDocument) (fields : ICreateCustomerInput)
    (store : CustomerStore) (survivor : ICustomerDocument)
    (store₂ : CustomerStore)
    (hA : store.find? (fun c => c._id == a) = some A)
    (hB : store.find? (fun c => c._id == b) = some B)
    (hab : a ≠ b)
    (hres : mergeCustomers clean now newId [a, b] fields store =
      (Except.ok survivor, store₂)) :
    survivor.tagIds.Nodup ∧
    survivor.tagIds.toFinset = A.tagIds.toFinset ∪ B.tagIds.toFinset ∧
    survivor.companyIds.Nodup ∧
    survivor.companyIds.toFinset =
      A.companyIds.toFinset ∪ B.companyIds.toFinset ∧
    survivor.emails.Nodup ∧
    survivor.emails.toFinset =
      (seedEmails fields).toFinset ∪ A.emails.toFinset ∪ B.emails.toFinset ∧
    survivor.phones.Nodup ∧
    survivor.phones.toFinset =
      (seedPhones fields).toFinset ∪ A.phones.toFinset ∪ B.phones.toFinset := by
  have hok := mergeCustomers_ok_check clean now newId [a, b] fields store
    survivor store₂ hres
  rw [mergeCustomers_two_found clean now newId a b A B fields store
    hA hB hab hok] at hres
  obtain ⟨hs, _⟩ := createCustomer_ok_inv _ _ _ _ _ _ _ _ hres
  subst hs
  simp only [persistCustomer, applyCreateDefaults_tagIds,
    applyCreateDefaults_companyIds, applyCreateDefaults_emails,
    applyCreateDefaults_phones]
  refine ⟨jsSetDedup_nodup _, ?_, jsSetDedup_nodup _, ?_,
    jsSetDedup_nodup _, ?_, jsSetDedup_nodup _, ?_⟩ <;>
    simp [toFinset_jsSetDedup]

/-- Customer A of the concrete two-customer store used to witness the
merge theorems. -/
def witnessA : ICustomerDocument :=
  { _id := "a", twitterData := none, facebookData := none,
    primaryEmail := none, emails := ["a@x"], primaryPhone := none,
    phones := [], tagIds := ["t1"], companyIds := ["c1"],
    integrationId := some "ia", ownerId := none, firstName := none,
    lastName := none, position := none, department := none,
    leadStatus := none, lifecycleState := none, hasAuthority := none,
    description := none, doNotDisturb := none, isUser := none,
    customFieldsData := [], createdAt := 0, modifiedAt := 0 }

/-- Customer B of the concrete two-customer store: shares tag `t1` with
A, adds tag `t2`. -/
def witnessB : ICustomerDocument :=
  { witnessA with
    _id := "b"
    emails := ["a@x", "b@x"]
    tagIds := ["t1", "t2"]
    companyIds := ["c2"]
    integrationId := some "ib" }

/-- The concrete store holding exactly A and B. -/
def witnessStore : CustomerStore := [witnessA, witnessB]

/-- The survivor record created by merging `[a, b]` of `witnessStore`
with an empty supplied field set, at time 0 with generated id `n`. -/
def witnessSurvivor : ICustomerDocument :=
  { witnessA with
    _id := "n"
    emails := ["a@x", "b@x"]
    tagIds := ["t1", "t2"]
    companyIds := ["c1", "c2"]
    integrationId := some "ib" }

/-- Witness for C1: the merge theorem applied to the concrete store,
where A has tags `t1` and B has tags `t1, t2`; the survivor gets tags
exactly `t1, t2`. -/
theorem mergeCustomers_tagIds_union_witness :
    witnessSurvivor.tagIds.Nodup ∧
    witnessSurvivor.tagIds.toFinset =
      witnessA.tagIds.toFinset ∪ witnessB.tagIds.toFinset ∧
    witnessSurvivor.companyIds.Nodup ∧
    witnessSurvivor.companyIds.toFinset =
      witnessA.companyIds.toFinset ∪ witnessB.companyIds.toFinset ∧
    witnessSurvivor.emails.Nodup ∧
    witnessSurvivor.emails.toFinset =
      (seedEmails {}).toFinset ∪ witnessA.emails.toFinset ∪
        witnessB.emails.toFinset ∧
    witnessSurvivor.phones.Nodup ∧
    witnessSurvivor.phones.toFinset =
      (seedPhones {}).toFinset ∪ witnessA.phones.toFinset ∪
        witnessB.phones.toFinset :=
  mergeCustomers_tagIds_union id 0 "n" "a" "b" witnessA witnessB {}
    witnessStore witnessSurvivor [witnessSurvivor]
    (by decide) (by decide) (by decide) (by rfl)

/-- C2: after a successful merge of `[a, b]` with both records found,
neither input record remains in the store (each was deleted during the
per-record fold), and the survivor carries the integration reference of
the last-processed input record B (last-write-wins). -/
theorem mergeCustomers_removes_inputs_last_integrationId
    (clean : CustomFieldsData → CustomFieldsData) (now : Nat) (newId : String)
    (a b : String) (A B : ICustomerDocument) (fields : ICreateCustomerInput)
    (store : CustomerStore) (survivor : ICustomerDocument)
    (store₂ : CustomerStore)
    (hA : store.find? (fun c => c._id == a) = some A)
    (hB : store.find? (fun c => c._id == b) = some B)
    (hab : a ≠ b) (hna : newId ≠ a) (hnb : newId ≠ b)
    (hres : mergeCustomers clean now newId [a, b] fields store =
      (Except.ok survivor, store₂)) :
    store₂.find? (fun c => c._id == a) = none ∧
    store₂.find? (fun c => c._id == b) = none ∧
    survivor.integrationId = B.integrationId := by
  have hok := mergeCustomers_ok_check clean now newId [a, b] fields store
    survivor store₂ hres
  rw [mergeCustomers_two_found clean now newId a b A B fields store
    hA hB hab hok] at hres
  obtain ⟨hs, hst⟩ := createCustomer_ok_inv _ _ _ _ _ _ _ _ hres
  have hid : survivor._id = newId := by
    rw [hs]
    rfl
  have hfa : ((store.filter (fun c => c._id != a)).filter
      (fun c => c._id != b)).find? (fun c => c._id == a) = none := by
    rw [List.find?_eq_none]
    intro x hx
    have hx' := List.of_mem_filter (List.mem_of_mem_filter hx)
    simp only [bne_iff_ne, ne_eq, decide_eq_true_eq] at hx'
    simp [hx']
  have hfb : ((store.filter (fun c => c._id != a)).filter
      (fun c => c._id != b)).find? (fun c => c._id == b) = none := by
    rw [List.find?_eq_none]
    intro x hx
    have hx' := List.of_mem_filter hx
    simp only [bne_iff_ne, ne_eq, decide_eq_true_eq] at hx'
    simp [hx']
  refine ⟨?_, ?_, ?_⟩
  · rw [hst, find?_append_none hfa]
    simp [List.find?_cons, hid, hna]
  · rw [hst, find?_append_none hfb]
    simp [List.find?_cons, hid, hnb]
  · rw [hs]
    simp only [persistCustomer, applyCreateDefaults_integrationId]

/-- Witness for C2 at the concrete two-customer store: after the merge,
neither `a` nor `b` resolves, and the survivor carries Bs integration
reference `ib`. -/
theorem mergeCustomers_removes_inputs_witness :
    ([witnessSurvivor] : CustomerStore).find? (fun c => c._id == "a") =
      none ∧
    ([witnessSurvivor] : CustomerStore).find? (fun c => c._id == "b") =
      none ∧
    witnessSurvivor.integrationId = witnessB.integrationId :=
  mergeCustomers_removes_inputs_last_integrationId id 0 "n" "a" "b"
    witnessA witnessB {} witnessStore witnessSurvivor [witnessSurvivor]
    (by decide) (by decide) (by decide) (by decide) (by decide) (by rfl)

/-- C3: the duplication checker fails with the error of the first
matching identity check in the fixed order twitter, facebook, email
(primary or secondary), phone (primary or secondary), over non-excluded
records, and succeeds exactly when no check matches; it is read-only by
construction (it returns no store).  `specFirstCollision` is the
spec-side description of the four checks and their order. -/
theorem checkDuplication_order_contract (f : ICustomerFieldsInput)
    (excl : IdsToExclude) (store : CustomerStore) :
    (∀ d, checkDuplication f excl store = Except.error d ↔
      specFirstCollision f excl store = some d) ∧
    (checkDuplication f excl store = Except.ok () ↔
      specFirstCollision f excl store = none) := by
  rw [checkDuplication_eq_spec]
  cases h : specFirstCollision f excl store <;> simp

/-- C5: when the initial duplication check of a merge (run on the
supplied field set excluding every input identifier) throws, the merge
returns that error with the store completely unchanged: no input record
deleted, no survivor created. -/
theorem mergeCustomers_initial_dup_error
    (clean : CustomFieldsData → CustomFieldsData) (now : Nat) (newId : String)
    (customerIds : List String) (fields : ICreateCustomerInput)
    (store : CustomerStore) (d : DupField)
    (h : checkDuplication fields.toFieldsInput
      (IdsToExclude.multi customerIds) store = Except.error d) :
    mergeCustomers clean now newId customerIds fields store =
      (Except.error d, store) := by
  unfold mergeCustomers
  rw [h]

/-- Witness for C5: a merge whose supplied primary email already lives
in the secondary-email list of a record not being merged fails with the
email error and leaves the two-customer store untouched. -/
theorem mergeCustomers_initial_dup_error_witness :
    mergeCustomers id 0 "n" ["zz"] { primaryEmail := some "a@x" }
      witnessStore = (Except.error DupField.email, witnessStore) :=
  mergeCustomers_initial_dup_error id 0 "n" ["zz"]
    { primaryEmail := some "a@x" } witnessStore DupField.email (by rfl)

theorem checkDuplication_excl_congr (f : ICustomerFieldsInput)
    (excl excl' : IdsToExclude) (store : CustomerStore)
    (h : ∀ c ∈ store, excl.excludes c._id = excl'.excludes c._id) :
    checkDuplication f excl store = checkDuplication f excl' store := by
  have hs : ∀ p, storeFind store excl p = storeFind store excl' p := by
    intro p
    unfold storeFind
    apply List.filter_congr
    intro c hc
    rw [h c hc]
  unfold checkDuplication checkTwitterDup checkFacebookDup checkEmailDup
    checkPhoneDup
  simp only [hs]

theorem foldl_mergeStep_missing (ids : List String) (acc : MergeAcc)
    (h : ∀ id ∈ ids, acc.store.find? (fun c => c._id == id) = none) :
    ids.foldl mergeStep acc = acc := by
  induction ids with
  | nil => rfl
  | cons i ids ih =>
    rw [List.foldl_cons]
    have hstep : mergeStep acc i = acc := by
      unfold mergeStep
      rw [h i (List.mem_cons_self i ids)]
    rw [hstep]
    exact ih (fun id hid => h id (List.mem_cons_of_mem i hid))

theorem mergeStep_not_found (acc : MergeAcc) (x : String)
    (h : acc.store.find? (fun c => c._id == x) = none) :
    mergeStep acc x = acc := by
  unfold mergeStep
  rw [h]

theorem find?_filter_none (l : List ICustomerDocument)
    (p q : ICustomerDocument → Bool) (h : l.find? p = none) :
    (l.filter q).find? p = none := by
  rw [List.find?_eq_none] at h ⊢
  intro c hc
  exact h c (List.mem_of_mem_filter hc)

theorem foldl_mergeStep_store_find_none (ids : List String) (acc : MergeAcc)
    (x : String) (h : acc.store.find? (fun c => c._id == x) = none) :
    ((ids.foldl mergeStep acc).store).find? (fun c => c._id == x) = none := by
  induction ids generalizing acc with
  | nil => exact h
  | cons i ids ih =>
    rw [List.foldl_cons]
    apply ih
    unfold mergeStep
    cases hf : acc.store.find? (fun c => c._id == i) with
    | none => exact h
    | some c =>
      dsimp only
      exact find?_filter_none _ _ _ h

/-- C9: an input identifier that resolves to no record is silently
skipped by the merge wherever it occurs in the input list: merging a
list that contains such an identifier returns exactly the result of
merging the list without it — so the unresolved identifier raises no
error and contributes nothing to the accumulators or to the integration
reference, while the found records still contribute as usual.  In
particular, when every input identifier is unresolved and the initial
duplication check passes, the merge still creates and returns a
survivor built from the supplied field set alone — empty tag and
company accumulators, email and phone accumulators holding only the
supplied primary seeds, the integration reference left as supplied. -/
theorem mergeCustomers_missing_ids_skipped
    (clean : CustomFieldsData → CustomFieldsData) (now : Nat) (newId : String)
    (ids₁ ids₂ : List String) (x : String) (fields : ICreateCustomerInput)
    (store : CustomerStore)
    (hx : store.find? (fun c => c._id == x) = none) :
    mergeCustomers clean now newId (ids₁ ++ x :: ids₂) fields store =
      mergeCustomers clean now newId (ids₁ ++ ids₂) fields store ∧
    ((∀ i ∈ ids₁ ++ ids₂, store.find? (fun c => c._id == i) = none) →
     checkDuplication fields.toFieldsInput
       (IdsToExclude.multi (ids₁ ++ x :: ids₂)) store = Except.ok () →
     ∃ c, mergeCustomers clean now newId (ids₁ ++ x :: ids₂) fields store =
         (Except.ok c, store ++ [c]) ∧
       c._id = newId ∧
       c.integrationId = fields.integrationId ∧
       c.tagIds = [] ∧
       c.companyIds = [] ∧
       c.emails = jsSetDedup (seedEmails fields) ∧
       c.phones = jsSetDedup (seedPhones fields)) := by
  have hnox : ∀ c ∈ store, ¬c._id = x := by
    intro c hc
    have := List.find?_eq_none.mp hx c hc
    simpa using this
  constructor
  · have hcong : checkDuplication fields.toFieldsInput
        (IdsToExclude.multi (ids₁ ++ x :: ids₂)) store =
        checkDuplication fields.toFieldsInput
          (IdsToExclude.multi (ids₁ ++ ids₂)) store := by
      apply checkDuplication_excl_congr
      intro c hc
      show ((ids₁ ++ x :: ids₂).contains c._id) =
        ((ids₁ ++ ids₂).contains c._id)
      rw [Bool.eq_iff_iff]
      simp [List.elem_iff, hnox c hc]
    unfold mergeCustomers
    rw [hcong]
    cases hc : checkDuplication fields.toFieldsInput
        (IdsToExclude.multi (ids₁ ++ ids₂)) store with
    | error f => rfl
    | ok u =>
      dsimp only
      have hfold : (ids₁ ++ x :: ids₂).foldl mergeStep
          { fields := fields, tagIds := [], companyIds := [],
            emails := seedEmails fields, phones := seedPhones fields,
            store := store } =
          (ids₁ ++ ids₂).foldl mergeStep
          { fields := fields, tagIds := [], companyIds := [],
            emails := seedEmails fields, phones := seedPhones fields,
            store := store } := by
        rw [List.foldl_append, List.foldl_append, List.foldl_cons]
        congr 1
        apply mergeStep_not_found
        exact foldl_mergeStep_store_find_none ids₁ _ x hx
      rw [hfold]
  · intro hmiss hok
    have hmiss' : ∀ i ∈ ids₁ ++ x :: ids₂,
        store.find? (fun c => c._id == i) = none := by
      intro i hi
      rcases List.mem_append.mp hi with h1 | h2
      · exact hmiss i (List.mem_append.mpr (Or.inl h1))
      · rcases List.mem_cons.mp h2 with rfl | h3
        · exact hx
        · exact hmiss i (List.mem_append.mpr (Or.inr h3))
    have hnotin : ∀ c ∈ store, (ids₁ ++ x :: ids₂).contains c._id = false := by
      intro c hc
      rw [← Bool.not_eq_true]
      intro hin
      have hmem : c._id ∈ ids₁ ++ x :: ids₂ := by simpa using hin
      have := (List.find?_eq_none.mp (hmiss' c._id hmem)) c hc
      simp at this
    have hok' : checkDuplication fields.toFieldsInput IdsToExclude.noExclude
        store = Except.ok () := by
      rw [← checkDuplication_excl_congr fields.toFieldsInput
        (IdsToExclude.multi (ids₁ ++ x :: ids₂)) IdsToExclude.noExclude store
        (fun c hc => hnotin c hc)]
      exact hok
    unfold mergeCustomers
    rw [hok]
    dsimp only
    rw [foldl_mergeStep_missing (ids₁ ++ x :: ids₂) _ (by exact hmiss')]
    dsimp only
    refine ⟨_, createCustomer_check_ok clean now newId _ none store hok',
      rfl, ?_, ?_, ?_, ?_, ?_⟩
    · simp [persistCustomer, applyCreateDefaults_integrationId]
    · simp [persistCustomer, applyCreateDefaults_tagIds, jsSetDedup]
    · simp [persistCustomer, applyCreateDefaults_companyIds, jsSetDedup]
    · simp [persistCustomer, applyCreateDefaults_emails]
    · simp [persistCustomer, applyCreateDefaults_phones]

/-- Witness for C9 at a mixed merge over the concrete two-customer
store: the unresolved identifier `zz` between the two found identifiers
`a` and `b` is skipped, so merging `[a, zz, b]` returns exactly the
result of merging `[a, b]`. -/
theorem mergeCustomers_missing_ids_skipped_witness :
    mergeCustomers id 0 "n" (["a"] ++ "zz" :: ["b"]) {} witnessStore =
      mergeCustomers id 0 "n" (["a"] ++ ["b"]) {} witnessStore ∧
    ((∀ i ∈ ["a"] ++ ["b"],
        witnessStore.find? (fun c => c._id == i) = none) →
     checkDuplication ({} : ICreateCustomerInput).toFieldsInput
       (IdsToExclude.multi (["a"] ++ "zz" :: ["b"])) witnessStore =
       Except.ok () →
     ∃ c, mergeCustomers id 0 "n" (["a"] ++ "zz" :: ["b"]) {} witnessStore =
         (Except.ok c, witnessStore ++ [c]) ∧
       c._id = "n" ∧
       c.integrationId = ({} : ICreateCustomerInput).integrationId ∧
       c.tagIds = [] ∧
       c.companyIds = [] ∧
       c.emails = jsSetDedup (seedEmails {}) ∧
       c.phones = jsSetDedup (seedPhones {})) :=
  mergeCustomers_missing_ids_skipped id 0 "n" ["a"] ["b"] "zz" {}
    witnessStore (by decide)

/-- Spec-side predicate: some identity value of the candidate field set
matches the given record (any of the four checks, primary or secondary
where applicable). -/
def collidesWith (f : ICustomerFieldsInput) (c : ICustomerDocument) : Bool :=
  (match f.twitterData with
   | some td => c.twitterData.any (fun t => t.id == td.id)
   | none => false) ||
  (match f.facebookData with
   | some fb => c.facebookData.any (fun d => d.id == fb.id)
   | none => false) ||
  (match f.primaryEmail with
   | some em => c.primaryEmail == some em || c.emails.contains em
   | none => false) ||
  (match f.primaryPhone with
   | some ph => c.primaryPhone == some ph || c.phones.contains ph
   | none => false)

theorem twitterCollides_imp (f : ICustomerFieldsInput) (excl : IdsToExclude)
    (store : CustomerStore) (h : twitterCollides f excl store = true) :
    ∃ c ∈ store, excl.excludes c._id = false ∧ collidesWith f c = true := by
  unfold twitterCollides at h
  cases htw : f.twitterData with
  | none => rw [htw] at h; simp at h
  | some td =>
    rw [htw] at h
    obtain ⟨c, hc, hp⟩ := List.any_eq_true.mp h
    rw [Bool.and_eq_true, Bool.not_eq_true'] at hp
    refine ⟨c, hc, hp.1, ?_⟩
    unfold collidesWith
    rw [htw]
    simp [hp.2]

theorem facebookCollides_imp (f : ICustomerFieldsInput) (excl : IdsToExclude)
    (store : CustomerStore) (h : facebookCollides f excl store = true) :
    ∃ c ∈ store, excl.excludes c._id = false ∧ collidesWith f c = true := by
  unfold facebookCollides at h
  cases hfb : f.facebookData with
  | none => rw [hfb] at h; simp at h
  | some fb =>
    rw [hfb] at h
    obtain ⟨c, hc, hp⟩ := List.any_eq_true.mp h
    rw [Bool.and_eq_true, Bool.not_eq_true'] at hp
    refine ⟨c, hc, hp.1, ?_⟩
    unfold collidesWith
    rw [hfb]
    simp [hp.2]

theorem emailCollides_imp (f : ICustomerFieldsInput) (excl : IdsToExclude)
    (store : CustomerStore) (h : emailCollides f excl store = true) :
    ∃ c ∈ store, excl.excludes c._id = false ∧ collidesWith f c = true := by
  unfold emailCollides at h
  cases hem : f.primaryEmail with
  | none => rw [hem] at h; simp at h
  | some em =>
    rw [hem] at h
    obtain ⟨c, hc, hp⟩ := List.any_eq_true.mp h
    rw [Bool.and_eq_true, Bool.not_eq_true'] at hp
    refine ⟨c, hc, hp.1, ?_⟩
    unfold collidesWith
    rw [hem]
    have h2 := hp.2
    simp at h2
    simp
    try tauto

theorem phoneCollides_imp (f : ICustomerFieldsInput) (excl : IdsToExclude)
    (store : CustomerStore) (h : phoneCollides f excl store = true) :
    ∃ c ∈ store, excl.excludes c._id = false ∧ collidesWith f c = true := by
  unfold phoneCollides at h
  cases hph : f.primaryPhone with
  | none => rw [hph] at h; simp at h
  | some ph =>
    rw [hph] at h
    obtain ⟨c, hc, hp⟩ := List.any_eq_true.mp h
    rw [Bool.and_eq_true, Bool.not_eq_true'] at hp
    refine ⟨c, hc, hp.1, ?_⟩
    unfold collidesWith
    rw [hph]
    have h2 := hp.2
    simp at h2
    simp
    try tauto

theorem checkDuplication_error_imp (f : ICustomerFieldsInput)
    (excl : IdsToExclude) (store : CustomerStore) (d : DupField)
    (h : checkDuplication f excl store = Except.error d) :
    ∃ c ∈ store, excl.excludes c._id = false ∧ collidesWith f c = true := by
  rw [checkDuplication_eq_spec] at h
  unfold specFirstCollision at h
  split_ifs at h with h1 h2 h3 h4
  · exact twitterCollides_imp f excl store h1
  · exact facebookCollides_imp f excl store h2
  · exact emailCollides_imp f excl store h3
  · exact phoneCollides_imp f excl store h4

/-- C4: updating a customer with its own current primary email succeeds
because the update path runs the duplication checker excluding the
target identifier itself; and in general an update raises a duplicate
error only when an identity value of the submitted field set matches
some record other than the target. -/
theorem updateCustomer_self_exclusion
    (clean : CustomFieldsData → CustomFieldsData) (now : Nat) (aid : String)
    (A : ICustomerDocument) (e : String) (store : CustomerStore)
    (hA : store.find? (fun c => c._id == aid) = some A)
    (hAe : A.primaryEmail = some e)
    (huniq : ∀ r ∈ store, r._id ≠ aid →
      r.primaryEmail ≠ some e ∧ e ∉ r.emails) :
    (∃ res, (updateCustomer clean now aid { primaryEmail := some e }
      store).1 = Except.ok res) ∧
    (∀ (doc : ICreateCustomerInput) (d : DupField),
      (updateCustomer clean now aid doc store).1 = Except.error d →
      ∃ r ∈ store, r._id ≠ aid ∧ collidesWith doc.toFieldsInput r = true) := by
  constructor
  · have hcheck : checkDuplication
        (ICreateCustomerInput.toFieldsInput { primaryEmail := some e })
        (IdsToExclude.single aid) store = Except.ok () := by
      rw [checkDuplication_eq_spec]
      have hcol : emailCollides
          (ICreateCustomerInput.toFieldsInput { primaryEmail := some e })
          (IdsToExclude.single aid) store = false := by
        unfold emailCollides ICreateCustomerInput.toFieldsInput
        dsimp only
        rw [List.any_eq_false]
        intro c hc
        by_cases hcid : c._id = aid
        · simp [IdsToExclude.excludes, hcid]
        · obtain ⟨hne, hnotin⟩ := huniq c hc hcid
          simp [hne, hnotin]
      unfold specFirstCollision
      rw [hcol]
      dsimp only [twitterCollides, facebookCollides, phoneCollides,
        ICreateCustomerInput.toFieldsInput]
      rfl
    unfold updateCustomer
    rw [hcheck]
    exact ⟨_, rfl⟩
  · intro doc d herr
    unfold updateCustomer at herr
    cases hcheck : checkDuplication doc.toFieldsInput
        (IdsToExclude.single aid) store with
    | ok u =>
      rw [hcheck] at herr
      simp at herr
    | error f =>
      obtain ⟨c, hc, hex, hcol⟩ :=
        checkDuplication_error_imp doc.toFieldsInput
          (IdsToExclude.single aid) store f hcheck
      refine ⟨c, hc, ?_, hcol⟩
      simpa [IdsToExclude.excludes] using hex

/-- Customer C of the concrete store used to witness the update
theorem: it owns primary email `c@x`. -/
def witnessC : ICustomerDocument :=
  { witnessA with
    _id := "c"
    primaryEmail := some "c@x"
    emails := ["c@x"] }

/-- Concrete store for the update witness: A (no primary email) and C
(primary email `c@x`). -/
def witnessStoreUpd : CustomerStore := [witnessA, witnessC]

/-- Witness for C4: updating C with its own primary email `c@x`
succeeds on the concrete store. -/
theorem updateCustomer_self_exclusion_witness :
    (∃ res, (updateCustomer id 3 "c" { primaryEmail := some "c@x" }
      witnessStoreUpd).1 = Except.ok res) ∧
    (∀ (doc : ICreateCustomerInput) (d : DupField),
      (updateCustomer id 3 "c" doc witnessStoreUpd).1 = Except.error d →
      ∃ r ∈ witnessStoreUpd, r._id ≠ "c" ∧
        collidesWith doc.toFieldsInput r = true) :=
  updateCustomer_self_exclusion id 3 "c" witnessC "c@x" witnessStoreUpd
    (by decide) (by decide) (by decide)

/-- C6: removal calls the four collaborator cascades sequentially in
the fixed order and deletes the customer record only after all four
succeed (the delete event is last in the call trace); when any cascade
call fails, the operation aborts with that error, the store is
untouched — in particular the target customer record remains — and no
delete of the customer record is issued. -/
theorem removeCustomer_cascade_gate (cascadeOk : Collaborator → Bool)
    (customerId : String) (store : CustomerStore) :
    (removeCustomer (fun _ => true) customerId store =
      (Except.ok (), store.filter (fun c => c._id != customerId),
        [RemoveEvent.cascade Collaborator.activityLogs,
         RemoveEvent.cascade Collaborator.conversations,
         RemoveEvent.cascade Collaborator.engageMessages,
         RemoveEvent.cascade Collaborator.internalNotes,
         RemoveEvent.deleteCustomer customerId])) ∧
    ((∃ co, cascadeOk co = false) →
      (removeCustomer cascadeOk customerId store).2.1 = store ∧
      RemoveEvent.deleteCustomer customerId ∉
        (removeCustomer cascadeOk customerId store).2.2 ∧
      ∃ co, (removeCustomer cascadeOk customerId store).1 =
        Except.error co) := by
  constructor
  · rfl
  · rintro ⟨co, hco⟩
    unfold removeCustomer
    by_cases h1 : cascadeOk Collaborator.activityLogs
    · by_cases h2 : cascadeOk Collaborator.conversations
      · by_cases h3 : cascadeOk Collaborator.engageMessages
        · by_cases h4 : cascadeOk Collaborator.internalNotes
          · exfalso
            cases co
            · exact absurd hco (by simp [h1])
            · exact absurd hco (by simp [h2])
            · exact absurd hco (by simp [h3])
            · exact absurd hco (by simp [h4])
          · simp [h1, h2, h3, h4]
        · simp [h1, h2, h3]
      · simp [h1, h2]
    · simp [h1]

/-- Witness for C6: with the conversations cascade failing on the
concrete store, removal leaves the store untouched, issues no customer
delete, and surfaces an error. -/
theorem removeCustomer_cascade_gate_witness :
    (removeCustomer (fun co => co != Collaborator.conversations) "a"
      witnessStore).2.1 = witnessStore ∧
    RemoveEvent.deleteCustomer "a" ∉
      (removeCustomer (fun co => co != Collaborator.conversations) "a"
        witnessStore).2.2 ∧
    ∃ co, (removeCustomer (fun co => co != Collaborator.conversations) "a"
      witnessStore).1 = Except.error co :=
  (removeCustomer_cascade_gate
    (fun co => co != Collaborator.conversations) "a" witnessStore).2
    ⟨Collaborator.conversations, by decide⟩

/-- C7: creation runs the duplication checker with no exclusion and
propagates its error with the store untouched; on success the persisted
record is appended and returned, carries both timestamps set at
operation time and the store-generated identifier, has its owner
reference defaulted to the acting user exactly when the candidate left
it unset, and carries the custom-field payload sanitized by the Fields
collaborator with an absent payload treated as empty. -/
theorem createCustomer_contract (clean : CustomFieldsData → CustomFieldsData)
    (now : Nat) (newId : String) (doc : ICreateCustomerInput)
    (user : Option IUserDocument) (store : CustomerStore) :
    (∀ d, checkDuplication doc.toFieldsInput IdsToExclude.noExclude store =
        Except.error d →
      createCustomer clean now newId doc user store =
        (Except.error d, store)) ∧
    (checkDuplication doc.toFieldsInput IdsToExclude.noExclude store =
        Except.ok () →
      ∃ c, createCustomer clean now newId doc user store =
          (Except.ok c, store ++ [c]) ∧
        c._id = newId ∧
        c.createdAt = now ∧
        c.modifiedAt = now ∧
        c.customFieldsData =
          clean (doc.customFieldsData.getD CustomFieldsData.empty) ∧
        c.ownerId = (if doc.ownerId.isNone then user.map IUserDocument._id
          else doc.ownerId)) := by
  constructor
  · intro d hd
    exact createCustomer_check_error clean now newId doc user store d hd
  · intro hok
    refine ⟨_, createCustomer_check_ok clean now newId doc user store hok,
      rfl, rfl, rfl, ?_, ?_⟩
    · simp [persistCustomer, applyCreateDefaults_customFieldsData]
    · simp [persistCustomer, applyCreateDefaults_ownerId]

/-- Witness for C7: creating a fresh customer with a new primary email
and no owner set, on behalf of acting user `u1`, over the concrete
store. -/
theorem createCustomer_contract_witness :
    ∃ c, createCustomer id 9 "k" { primaryEmail := some "new@x" }
        (some { _id := "u1" }) witnessStore = (Except.ok c, witnessStore ++ [c]) ∧
      c._id = "k" ∧
      c.createdAt = 9 ∧
      c.modifiedAt = 9 ∧
      c.customFieldsData =
        id ((none : Option CustomFieldsData).getD CustomFieldsData.empty) ∧
      c.ownerId = (if (none : Option String).isNone then
        (some ({ _id := "u1" } : IUserDocument)).map IUserDocument._id
        else none) :=
  (createCustomer_contract id 9 "k" { primaryEmail := some "new@x" }
    (some { _id := "u1" }) witnessStore).2 (by rfl)

/-- C8: when the candidate field set carries none of the four identity
fields, the duplication checker returns ok for every store and every
exclusion argument, and creating such a customer always passes the
duplication gate regardless of the records already present. -/
theorem checkDuplication_no_identity_fields
    (clean : CustomFieldsData → CustomFieldsData) (now : Nat) (newId : String)
    (doc : ICreateCustomerInput) (user : Option IUserDocument)
    (excl : IdsToExclude) (store : CustomerStore)
    (h1 : doc.twitterData = none) (h2 : doc.facebookData = none)
    (h3 : doc.primaryEmail = none) (h4 : doc.primaryPhone = none) :
    checkDuplication doc.toFieldsInput excl store = Except.ok () ∧
    ∃ c, createCustomer clean now newId doc user store =
      (Except.ok c, store ++ [c]) := by
  have hch : ∀ excl' : IdsToExclude,
      checkDuplication doc.toFieldsInput excl' store = Except.ok () := by
    intro excl'
    unfold checkDuplication checkTwitterDup checkFacebookDup checkEmailDup
      checkPhoneDup ICreateCustomerInput.toFieldsInput
    dsimp only
    rw [h1, h2, h3, h4]
    rfl
  exact ⟨hch excl, ⟨_, createCustomer_check_ok clean now newId doc user store
    (hch IdsToExclude.noExclude)⟩⟩

/-- Witness for C8: a candidate with no identity fields passes the
checker over the populated concrete store under a single-id exclusion,
and its creation succeeds. -/
theorem checkDuplication_no_identity_fields_witness :
    checkDuplication ({} : ICreateCustomerInput).toFieldsInput
      (IdsToExclude.single "a") witnessStore = Except.ok () ∧
    ∃ c, createCustomer id 4 "m" {} none witnessStore =
      (Except.ok c, witnessStore ++ [c]) :=
  checkDuplication_no_identity_fields id 4 "m" {} none
    (IdsToExclude.single "a") witnessStore rfl rfl rfl rfl

theorem mem_addToSet (l : List String) (a : String) : a ∈ addToSet l a := by
  unfold addToSet
  by_cases h : a ∈ l
  · rwa [if_pos h]
  · rw [if_neg h]
    simp

theorem addToSet_nodup (l : List String) (a : String) (h : l.Nodup) :
    (addToSet l a).Nodup := by
  unfold addToSet
  by_cases ha : a ∈ l
  · rwa [if_pos ha]
  · rw [if_neg ha, ← List.concat_eq_append]
    exact List.Nodup.concat ha h

theorem toFinset_addToSet (l : List String) (a : String) :
    (addToSet l a).toFinset = insert a l.toFinset := by
  unfold addToSet
  by_cases ha : a ∈ l
  · rw [if_pos ha]
    have : a ∈ l.toFinset := List.mem_toFinset.mpr ha
    rw [Finset.insert_eq_self.mpr this]
  · rw [if_neg ha]
    ext x
    simp [or_comm]

/-- C10: `addCompany` returns the company object created by the Company
collaborator — carrying the collaborator-generated identifier — and not
the updated customer record; meanwhile the company identifier is added
to the matching customer record with set-insert semantics: it is
present afterwards, a duplicate-free list stays duplicate-free, and as
a set the list becomes the old set plus the new identifier. -/
theorem addCompany_returns_company (genId cid name website : String)
    (store : CustomerStore) :
    (addCompany genId cid name website store).1 =
      { _id := genId, name := name, website := website } ∧
    (∀ c ∈ store, c._id = cid →
      { c with companyIds := addToSet c.companyIds genId } ∈
        (addCompany genId cid name website store).2 ∧
      genId ∈ addToSet c.companyIds genId ∧
      (c.companyIds.Nodup → (addToSet c.companyIds genId).Nodup) ∧
      (addToSet c.companyIds genId).toFinset =
        insert genId c.companyIds.toFinset) := by
  refine ⟨rfl, ?_⟩
  intro c hc hcid
  refine ⟨?_, mem_addToSet _ _, addToSet_nodup _ _, toFinset_addToSet _ _⟩
  unfold addCompany
  dsimp only
  have hm := List.mem_map_of_mem
    (fun x : ICustomerDocument => if x._id == cid then
      { x with companyIds := addToSet x.companyIds genId } else x) hc
  have himg : (fun x : ICustomerDocument => if x._id == cid then
      { x with companyIds := addToSet x.companyIds genId } else x) c =
      { c with companyIds := addToSet c.companyIds genId } := by
    dsimp only
    rw [if_pos (show (c._id == cid) = true by simp [hcid])]
  rw [himg] at hm
  exact hm

/-- Witness for C10 on the concrete store: linking a new company `g` to
customer `a`, whose company list is `[c1]`. -/
theorem addCompany_returns_company_witness :
    (addCompany "g" "a" "nm" "ws" witnessStore).1 =
      { _id := "g", name := "nm", website := "ws" } ∧
    ({ witnessA with companyIds := addToSet witnessA.companyIds "g" } ∈
      (addCompany "g" "a" "nm" "ws" witnessStore).2 ∧
    "g" ∈ addToSet witnessA.companyIds "g" ∧
    (witnessA.companyIds.Nodup → (addToSet witnessA.companyIds "g").Nodup) ∧
    (addToSet witnessA.companyIds "g").toFinset =
      insert "g" witnessA.companyIds.toFinset) :=
  ⟨(addCompany_returns_company "g" "a" "nm" "ws" witnessStore).1,
   (addCompany_returns_company "g" "a" "nm" "ws" witnessStore).2 witnessA
     (by decide) (by decide)⟩
